import Mathlib

/-!
Shallow embedding of the contacts-management backend (Homework26):
the authentication subsystem (src/services/auth.py, src/routes/auth.py,
src/repository/users.py) and the contacts repository/routes
(src/repository/contacts.py, src/routes/contacts.py).

Python exceptions are modelled with `Except PyErr`; an `HTTPException`
raised by the code is the `PyErr.http status detail` constructor, while
exceptions that escape the handlers unhandled (TypeError, AttributeError,
redis connection errors, KeyError, ValueError, passlib UnknownHashError)
get their own constructors.
-/

namespace ContactsApp

/-- Exceptions observable at the boundary of a request handler. -/
inductive PyErr where
  | http (status : Nat) (detail : String)
  | redisError
  | typeError
  | attributeError
  | keyError
  | valueError
  | unknownHashError
  deriving DecidableEq, Repr

/-- Boolean test distinguishing a raised exception from a normal return. -/
def isError {α : Type} : Except PyErr α → Bool
  | .error _ => true
  | .ok _ => false

instance {ε α : Type} [DecidableEq ε] [DecidableEq α] : DecidableEq (Except ε α) := fun x y =>
  match x, y with
  | .error a, .error b =>
    if h : a = b then isTrue (by subst h; rfl) else isFalse (fun heq => h (by injection heq))
  | .ok a, .ok b =>
    if h : a = b then isTrue (by subst h; rfl) else isFalse (fun heq => h (by injection heq))
  | .error _, .ok _ => isFalse (fun heq => Except.noConfusion heq)
  | .ok _, .error _ => isFalse (fun heq => Except.noConfusion heq)

/-! ## JWT model (python-jose jwt.encode / jwt.decode)

A token is its claim set plus the key it was signed with; `jwtDecode`
fails (JWTError) when the key does not match or the token is expired,
exactly the two failure modes jose checks for tokens this app issues. -/

/-- Claim set carried by every token the app issues: subject, issued-at,
expiry (both as seconds) and the purpose tag stored in the `scope` claim. -/
structure JwtPayload where
  sub : Option String
  iat : Nat
  exp : Nat
  scope : String
  deriving DecidableEq, Repr

/-- A signed token: payload plus signing key. -/
structure Jwt where
  payload : JwtPayload
  key : String
  deriving DecidableEq, Repr

/-- Model of `settings.secret_key` (an arbitrary fixed key). -/
def SECRET_KEY : String := "secret-key"

/-- Model of jose `jwt.encode(payload, key, algorithm)`. -/
def jwtEncode (p : JwtPayload) (key : String) : Jwt := ⟨p, key⟩

/-- Model of jose `jwt.decode(token, key, algorithms)` at time `now`:
raises JWTError (modelled as `Except.error ()`) on a signature mismatch or
an expired token, otherwise returns the payload. -/
def jwtDecode (t : Jwt) (key : String) (now : Nat) : Except Unit JwtPayload :=
  if t.key = key ∧ now < t.payload.exp then .ok t.payload else .error ()

/-! ## PasswordManager (src/services/auth.py lines 15-40)

`pwd_context` is passlib's `CryptContext(schemes=["bcrypt"])`, an external
library modelled here by its contract: a bcrypt hash is self-describing
(it starts with the algorithm identifier), `verify` recomputes and
compares for an identifiable hash, and raises `UnknownHashError` for a
string it cannot identify.  The digest itself is modelled by an injective
function of the password (one-wayness is irrelevant to the claims). -/

/-- Character-list test that `s` begins with the characters of `pre`. -/
def listBeginsWith : List Char → List Char → Bool
  | [], _ => true
  | _ :: _, [] => false
  | p :: ps, c :: cs => p == c && listBeginsWith ps cs

/-- String `s` begins with `pre`. -/
def strBeginsWith (s pre : String) : Bool := listBeginsWith pre.data s.data

/-- The bcrypt algorithm identifier embedded in every well-formed hash. -/
def bcryptIdent : String := "$2b$12$"

/-- Embeds `PasswordManager.get_password_hash`: delegates to `pwd_context.hash`,
modelled as the identifier followed by an injective digest. -/
def getPasswordHash (password : String) : String := bcryptIdent ++ password

/-- Model of passlib `CryptContext.verify`: returns a Bool for an
identifiable (well-formed) hash, raises `UnknownHashError` otherwise. -/
def cryptContextVerify (plain hashed : String) : Except PyErr Bool :=
  if strBeginsWith hashed bcryptIdent then .ok (hashed == getPasswordHash plain)
  else .error .unknownHashError

/-- Embeds `PasswordManager.verify_password`: a direct passthrough to
`pwd_context.verify` (src/services/auth.py line 29). -/
def verifyPassword (plain_password hashed_password : String) : Except PyErr Bool :=
  cryptContextVerify plain_password hashed_password

/-! ## TokenManager token issuance (src/services/auth.py lines 48-92, 161-175) -/

/-- The `data` dict passed to the token creators, always `{"sub": email}`. -/
structure TokenData where
  sub : Option String
  deriving DecidableEq, Repr

/-- Embeds `TokenManager.create_access_token`: scope `access_token`; expiry is
`now + expires_delta` seconds when `expires_delta` is truthy (non-None and
non-zero), else 15 minutes. -/
def createAccessToken (data : TokenData) (expires_delta : Option Nat) (now : Nat) : Jwt :=
  let expire := match expires_delta with
    | some s => if s = 0 then now + 15 * 60 else now + s
    | none => now + 15 * 60
  jwtEncode { sub := data.sub, iat := now, exp := expire, scope := "access_token" } SECRET_KEY

/-- Embeds `TokenManager.create_refresh_token`: scope `refresh_token`; default
lifetime 7 days. -/
def createRefreshToken (data : TokenData) (expires_delta : Option Nat) (now : Nat) : Jwt :=
  let expire := match expires_delta with
    | some s => if s = 0 then now + 7 * 24 * 60 * 60 else now + s
    | none => now + 7 * 24 * 60 * 60
  jwtEncode { sub := data.sub, iat := now, exp := expire, scope := "refresh_token" } SECRET_KEY

/-- Embeds `TokenManager.create_email_token`: scope `email_token`, lifetime 7 days. -/
def createEmailToken (data : TokenData) (now : Nat) : Jwt :=
  jwtEncode { sub := data.sub, iat := now, exp := now + 7 * 24 * 60 * 60, scope := "email_token" }
    SECRET_KEY

/-! ## User model and repository (src/repository/users.py) -/

/-- The `User` row (src/database/models is not under src/; the fields the
authentication code reads and writes are taken from its uses: email,
username, hashed password, confirmed flag, stored refresh token).  The
stored refresh token is kept as the issued `Jwt` value; jose encoding is
deterministic, so equality of the encoded strings is equality of these
values. -/
structure User where
  email : String
  username : String
  password : String
  confirmed : Bool
  refresh_token : Option Jwt
  deriving DecidableEq, Repr

/-- Embeds `get_user_by_email`: first user in the table with the given email
(`db.query(User).filter_by(email=email).first()`). -/
def getUserByEmail (email : String) : List User → Option User
  | [] => none
  | u :: us => if u.email = email then some u else getUserByEmail email us

/-- Embeds `update_token(user, refresh_token, db)`: sets the matched user's
`refresh_token` column and commits; the user object is the one
`get_user_by_email` returned, i.e. the first row with that email. -/
def updateToken (email : String) (tok : Option Jwt) : List User → List User
  | [] => []
  | u :: us =>
    if u.email = email then { u with refresh_token := tok } :: us
    else u :: updateToken email tok us

/-! ## Redis cache model

The `redis.Redis` client of `TokenManager` (src/services/auth.py line 46):
a key-value store of pickled users; when the backend is unreachable
(`failing = true`) every command raises a connection error.  Pickling is
modelled as the identity, and `set` followed by `expire` is one step
(the ttl itself plays no role in the claims). -/

/-- State of the Redis backend. -/
structure RedisCache where
  entries : List (String × User)
  failing : Bool
  deriving DecidableEq, Repr

/-- Lookup of a key among the stored entries. -/
def lookupEntry (k : String) : List (String × User) → Option User
  | [] => none
  | (k2, u) :: rest => if k2 = k then some u else lookupEntry k rest

/-- Embeds `r.get(key)`: raises when the backend is unreachable, else returns the
stored value or None. -/
def cacheGet (c : RedisCache) (k : String) : Except PyErr (Option User) :=
  if c.failing then .error .redisError else .ok (lookupEntry k c.entries)

/-- Embeds `r.set(key, pickle.dumps(user))` followed by `r.expire(key, 900)`:
raises when the backend is unreachable, else stores the entry. -/
def cacheSet (c : RedisCache) (k : String) (u : User) : Except PyErr RedisCache :=
  if c.failing then .error .redisError
  else .ok { c with entries := (k, u) :: c.entries }

/-- The 401 `credentials_exception` of `get_current_user`. -/
def credentialsException : PyErr := .http 401 "Could not validate credentials"

/-- Embeds `TokenManager.get_current_user` (src/services/auth.py lines 94-139):
decode the bearer token (any JWTError and any scope other than
`access_token`, or a missing subject, yield the 401 credentials
exception), then consult the Redis client directly — `self.r.get`,
`self.r.set`, `self.r.expire` are called with no try/except around them,
so a raising cache backend propagates out of the function — falling back
to `get_user_by_email` on a cache miss. -/
def getCurrentUser (token : Jwt) (db : List User) (cache : RedisCache) (now : Nat) :
    Except PyErr (User × RedisCache) :=
  match jwtDecode token SECRET_KEY now with
  | .error _ => .error credentialsException
  | .ok payload =>
    if payload.scope = "access_token" then
      match payload.sub with
      | none => .error credentialsException
      | some email =>
        match cacheGet cache ("user:" ++ email) with
        | .error e => .error e
        | .ok none =>
          match getUserByEmail email db with
          | none => .error credentialsException
          | some user =>
            match cacheSet cache ("user:" ++ email) user with
            | .error e => .error e
            | .ok cache2 => .ok (user, cache2)
        | .ok (some user) => .ok (user, cache)
    else .error credentialsException

/-- Embeds `TokenManager.decode_refresh_token` (src/services/auth.py lines
141-159): JWTError yields 401 "Could not validate credentials"; a decoded
token whose scope is not `refresh_token` yields 401 "Invalid scope for
token"; `payload[sub]` on a payload without a subject raises KeyError,
which the except clause (JWTError only) does not catch. -/
def decodeRefreshToken (refresh_token : Jwt) (now : Nat) : Except PyErr String :=
  match jwtDecode refresh_token SECRET_KEY now with
  | .error _ => .error (.http 401 "Could not validate credentials")
  | .ok payload =>
    if payload.scope = "refresh_token" then
      match payload.sub with
      | none => .error .keyError
      | some email => .ok email
    else .error (.http 401 "Invalid scope for token")

/-- Embeds `TokenManager.get_email_from_token` (src/services/auth.py lines
177-195): JWTError yields 422 "Invalid token for email verification"; on
scope `email_token` the subject is returned; for any other scope the
function falls off the end of the if and returns None without raising. -/
def getEmailFromToken (token : Jwt) (now : Nat) : Except PyErr (Option String) :=
  match jwtDecode token SECRET_KEY now with
  | .error _ => .error (.http 422 "Invalid token for email verification")
  | .ok payload =>
    if payload.scope = "email_token" then
      match payload.sub with
      | none => .error .keyError
      | some email => .ok (some email)
    else .ok none

/-- Embeds `get_cache_user_by_email` (src/repository/users.py lines 11-34): a
falsy email returns None; with no cache object the read is skipped; the
try/except swallows every cache/deserialization failure into None.  This
helper never raises, but nothing in the repository calls it. -/
def getCacheUserByEmail (email : String) (cache : Option RedisCache) : Option User :=
  if email = "" then none
  else
    match cache with
    | none => none
    | some c =>
      match cacheGet c ("user:" ++ email) with
      | .error _ => none
      | .ok none => none
      | .ok (some user) => some user

/-! ## Auth routes (src/routes/auth.py)

A route returns the final database state together with the outcome, so
that side effects performed before a raised exception stay observable. -/

/-- The TokenModel response of login and refresh. -/
structure TokenPair where
  access_token : Jwt
  refresh_token : Jwt
  token_type : String
  deriving DecidableEq, Repr

/-- The `login` route (src/routes/auth.py lines 41-63): unknown email →
401 "Invalid email"; unconfirmed → 401 "Email not confirmed"; failed
password check → 401 "Invalid password"; otherwise issue a fresh
access/refresh pair, store the refresh token, and return the pair.  A
raising `verify_password` propagates. -/
def login (username password : String) (db : List User) (now : Nat) :
    List User × Except PyErr TokenPair :=
  match getUserByEmail username db with
  | none => (db, .error (.http 401 "Invalid email"))
  | some user =>
    if user.confirmed = false then (db, .error (.http 401 "Email not confirmed"))
    else
      match verifyPassword password user.password with
      | .error e => (db, .error e)
      | .ok false => (db, .error (.http 401 "Invalid password"))
      | .ok true =>
        let access := createAccessToken ⟨some user.email⟩ none now
        let refresh := createRefreshToken ⟨some user.email⟩ none now
        (updateToken user.email (some refresh) db, .ok ⟨access, refresh, "bearer"⟩)

/-- The `refresh_token` route (src/routes/auth.py lines 66-87): decode
the presented token; `user.refresh_token` on the None returned for an
unknown email raises AttributeError (line 81); a mismatch against the
stored value clears it and raises 401 "Invalid refresh token" (lines
82-83); on the success path line 85 calls
`auth_service.token_manager.decode_refresh_token(data={"sub": email})` —
`decode_refresh_token` has no `data` parameter, so the call raises
TypeError before any new refresh token is produced or stored. -/
def refreshTokenRoute (token : Jwt) (db : List User) (now : Nat) :
    List User × Except PyErr TokenPair :=
  match decodeRefreshToken token now with
  | .error e => (db, .error e)
  | .ok email =>
    match getUserByEmail email db with
    | none => (db, .error .attributeError)
    | some user =>
      if user.refresh_token ≠ some token then
        (updateToken email none db, .error (.http 401 "Invalid refresh token"))
      else
        (db, .error .typeError)

/-! ## Contacts (src/repository/contacts.py, src/routes/contacts.py)

Dates follow the proleptic Gregorian calendar of Python's
`datetime.date`.  Contact ownership (`filter_by(user=user)`) is keyed by
the owning user, modelled by the user's identity key (email); only the
fields the claims read are embedded (id, owner, birthday). -/

/-- A calendar date as `datetime.date` holds it. -/
structure PyDate where
  year : Nat
  month : Nat
  day : Nat
  deriving DecidableEq, Repr

/-- Gregorian leap-year rule. -/
def isLeapYear (y : Nat) : Bool := (y % 4 == 0 && y % 100 != 0) || y % 400 == 0

/-- Number of days in month `m` of year `y`. -/
def daysInMonth (y m : Nat) : Nat :=
  if m = 2 then (if isLeapYear y then 29 else 28)
  else if m = 4 ∨ m = 6 ∨ m = 9 ∨ m = 11 then 30
  else 31

/-- One-based ordinal of the date within its own year; the difference of
two `datetime.date` values in the same year is the difference of these. -/
def dayOfYear (d : PyDate) : Nat :=
  (List.range (d.month - 1)).foldl (fun acc i => acc + daysInMonth d.year (i + 1)) 0 + d.day

/-- Embeds `date.replace(year=y)`: keeps month and day; raises ValueError when
the day does not exist in the target year (Feb 29 → non-leap year). -/
def dateReplaceYear (d : PyDate) (y : Nat) : Option PyDate :=
  if d.day ≤ daysInMonth y d.month then some { d with year := y } else none

/-- The `Contact` row, restricted to the fields the claims read: primary
key, owning user (identity key), nullable birthday. -/
structure Contact where
  id : Nat
  user : String
  birthday : Option PyDate
  deriving DecidableEq, Repr

/-- Embeds `get_contact_by_id` (src/repository/contacts.py lines 48-62):
`db.query(Contact).filter_by(id=contact_id, user=user).first()` — the
first contact matching both the id and the owner, or None. -/
def getContactById (contact_id : Nat) (db : List Contact) (user : String) : Option Contact :=
  (db.filter (fun c => c.id == contact_id && c.user == user)).head?

/-- The `get_contact` route (src/routes/contacts.py lines 65-80): a None
from the repository becomes 404 "Not found". -/
def getContactRoute (contact_id : Nat) (db : List Contact) (user : String) :
    Except PyErr Contact :=
  match getContactById contact_id db user with
  | none => .error (.http 404 "Not found")
  | some c => .ok c

/-- The `par` dict of `search_birthday`; a missing key reads as None via
`par.get`. -/
structure BirthdayPar where
  days : Option Int
  skip : Option Nat
  limit : Option Nat
  deriving Repr

/-- Embeds `query.offset(skip)`: a None offset is a no-op. -/
def applySkip (s : Option Nat) (l : List Contact) : List Contact :=
  match s with
  | none => l
  | some n => l.drop n

/-- Embeds `.limit(limit)`: a None limit is a no-op. -/
def applyLimit (s : Option Nat) (l : List Contact) : List Contact :=
  match s with
  | none => l
  | some n => l.take n

/-- The contacts `search_birthday` iterates over: the user's contacts
after offset and limit. -/
def visibleContacts (par : BirthdayPar) (db : List Contact) (user : String) : List Contact :=
  applyLimit par.limit (applySkip par.skip (db.filter (fun c => c.user == user)))

/-- The per-contact test of the loop body: `days_until_birthday` is
`(birthday_this_year - now).days` and membership in `range(days)` is
`0 ≤ days_until < days`. -/
def birthdayInRange (days : Int) (nowD bty : PyDate) : Bool :=
  let du : Int := (dayOfYear bty : Int) - (dayOfYear nowD : Int)
  decide (0 ≤ du ∧ du < days)

/-- The `for contact in contacts` loop of `search_birthday` (lines
210-217): a contact without a birthday is skipped; `replace(year=...)` on
a day absent from the current year raises ValueError out of the function;
otherwise the contact is appended when its days-until falls in
`range(days)`. -/
def searchLoop (nowD : PyDate) (days : Int) : List Contact → Except PyErr (List Contact)
  | [] => .ok []
  | c :: rest =>
    match c.birthday with
    | none => searchLoop nowD days rest
    | some b =>
      match dateReplaceYear b nowD.year with
      | none => .error .valueError
      | some bty =>
        match searchLoop nowD days rest with
        | .error e => .error e
        | .ok r => .ok (if birthdayInRange days nowD bty then c :: r else r)

/-- Embeds `search_birthday` (src/repository/contacts.py lines 189-217):
`days = int(par.get("days", 7)) + 1`, `now = datetime.now().date()`
(passed here as `nowD`), query the user's contacts with offset/limit,
then run the collection loop. -/
def searchBirthday (par : BirthdayPar) (db : List Contact) (user : String) (nowD : PyDate) :
    Except PyErr (List Contact) :=
  let days := par.days.getD 7 + 1
  searchLoop nowD days (visibleContacts par db user)

/-! ## Projection lemmas for issued tokens -/

theorem accessToken_key (data : TokenData) (d : Option Nat) (now : Nat) :
    (createAccessToken data d now).key = SECRET_KEY := by
  cases d <;> rfl

theorem accessToken_scope (data : TokenData) (d : Option Nat) (now : Nat) :
    (createAccessToken data d now).payload.scope = "access_token" := by
  cases d <;> rfl

theorem accessToken_sub (data : TokenData) (d : Option Nat) (now : Nat) :
    (createAccessToken data d now).payload.sub = data.sub := by
  cases d <;> rfl

theorem refreshToken_key (data : TokenData) (d : Option Nat) (now : Nat) :
    (createRefreshToken data d now).key = SECRET_KEY := by
  cases d <;> rfl

theorem refreshToken_scope (data : TokenData) (d : Option Nat) (now : Nat) :
    (createRefreshToken data d now).payload.scope = "refresh_token" := by
  cases d <;> rfl

theorem refreshToken_sub (data : TokenData) (d : Option Nat) (now : Nat) :
    (createRefreshToken data d now).payload.sub = data.sub := by
  cases d <;> rfl

/-! ## Concrete instances used by counterexamples and witnesses -/

/-- A confirmed user as stored after signup and login. -/
def userA : User :=
  { email := "a@x", username := "alice", password := getPasswordHash "pw123",
    confirmed := true, refresh_token := some (createRefreshToken ⟨some "a@x"⟩ none 0) }

/-- The refresh token currently stored for `userA`. -/
def rtA : Jwt := createRefreshToken ⟨some "a@x"⟩ none 0

/-- A valid access token for `userA`, issued at 0, checked at 100 < 900. -/
def atA : Jwt := createAccessToken ⟨some "a@x"⟩ none 0

/-- A refresh token for a subject absent from the persistent store. -/
def rtGhost : Jwt := createRefreshToken ⟨some "ghost@x"⟩ none 0

/-- A refresh token for `userA` issued later than the stored one, hence
distinct from it. -/
def rtStale : Jwt := createRefreshToken ⟨some "a@x"⟩ none 5

/-! ## C1 — cache failure behaviour of the session resolver -/

/-- C1 counterexample: `atA` is a validly signed, unexpired access token
for a subject present in the store, yet with the cache backend raising
(`failing := true`) `get_current_user` propagates the redis exception
instead of returning the Identity: the cache failure is not swallowed. -/
theorem cache_fault_breaks_resolve_cex :
    atA.key = SECRET_KEY ∧ 100 < atA.payload.exp ∧ atA.payload.scope = "access_token"
    ∧ getUserByEmail "a@x" [userA] = some userA
    ∧ getCurrentUser atA [userA] ⟨[], true⟩ 100 = .error .redisError
    ∧ isError (getCurrentUser atA [userA] ⟨[], true⟩ 100) = true := by decide

/-- C1 (amended): for a valid (signed, unexpired, access-purpose) bearer
token whose subject is in the persistent store, `get_current_user`
returns the Identity on a clean cache miss (falling back to the store and
populating the cache), but when the cache backend raises, the exception
propagates out of the resolver and authentication fails — cache failures
are not swallowed here (only the unused repository helper
`get_cache_user_by_email` swallows them). -/
theorem resolve_cache_fault_behavior
    (t : Jwt) (email : String) (db : List User) (user : User) (cache : RedisCache) (now : Nat)
    (hkey : t.key = SECRET_KEY) (hexp : now < t.payload.exp)
    (hscope : t.payload.scope = "access_token") (hsub : t.payload.sub = some email)
    (huser : getUserByEmail email db = some user) :
    (cache.failing = true → getCurrentUser t db cache now = .error .redisError)
    ∧ (cache.failing = false → lookupEntry ("user:" ++ email) cache.entries = none →
        getCurrentUser t db cache now =
          .ok (user, { cache with entries := ("user:" ++ email, user) :: cache.entries })) := by
  constructor
  · intro hf
    simp [getCurrentUser, jwtDecode, hkey, hexp, hscope, hsub, cacheGet, hf]
  · intro hf hmiss
    simp [getCurrentUser, jwtDecode, hkey, hexp, hscope, hsub, cacheGet, cacheSet, hf, hmiss,
      huser]

/-- Witness for C1 (amended) at the concrete inputs of the counterexample
plus a healthy empty cache. -/
theorem resolve_cache_fault_behavior_witness :
    getCurrentUser atA [userA] ⟨[], true⟩ 100 = .error .redisError
    ∧ getCurrentUser atA [userA] ⟨[], false⟩ 100 =
        .ok (userA, ⟨[("user:" ++ "a@x", userA)], false⟩) :=
  ⟨(resolve_cache_fault_behavior atA "a@x" [userA] userA ⟨[], true⟩ 100 (by decide) (by decide)
      (by decide) (by decide) (by decide)).1 rfl,
   (resolve_cache_fault_behavior atA "a@x" [userA] userA ⟨[], false⟩ 100 (by decide) (by decide)
      (by decide) (by decide) (by decide)).2 rfl rfl⟩

/-! ## C2 — refresh rotation -/

/-- C2: two sequential refresh calls with the stored refresh token.  The
first call already fails with a TypeError (src/routes/auth.py line 85
calls `decode_refresh_token(data={"sub": email})`, a keyword argument the
function does not accept), leaving the store unchanged — it never
succeeds and never rotates the token, contradicting the claimed
first-succeeds/second-401 behaviour. -/
theorem refresh_first_call_raises_typeerror :
    refreshTokenRoute rtA [userA] 100 = ([userA], .error .typeError)
    ∧ userA.refresh_token = some rtA := by decide

/-! ## C3 — refresh with an unknown subject -/

/-- C3: a validly signed, unexpired, refresh-purpose token whose subject
is not in the store: `get_user_by_email` returns None and line 81
(`user.refresh_token`) raises AttributeError — the request crashes
instead of failing with Unauthorized. -/
theorem refresh_unknown_email_raises_attrerror :
    rtGhost.key = SECRET_KEY ∧ 100 < rtGhost.payload.exp
    ∧ rtGhost.payload.scope = "refresh_token"
    ∧ getUserByEmail "ghost@x" [userA] = none
    ∧ refreshTokenRoute rtGhost [userA] 100 = ([userA], .error .attributeError) := by decide

/-! ## C4 — refresh-token mismatch clears the stored value -/

/-- Updating the token of the user found by `get_user_by_email` is
visible through a subsequent lookup. -/
theorem getUserByEmail_updateToken (email : String) (tok : Option Jwt) (db : List User)
    (user : User) (h : getUserByEmail email db = some user) :
    getUserByEmail email (updateToken email tok db) = some { user with refresh_token := tok } := by
  induction db with
  | nil => simp [getUserByEmail] at h
  | cons u us ih =>
    by_cases he : u.email = email
    · simp only [getUserByEmail, if_pos he] at h
      injection h with h2
      subst h2
      simp [updateToken, if_pos he, getUserByEmail, he]
    · simp only [getUserByEmail, if_neg he] at h
      simp only [updateToken, if_neg he, getUserByEmail, if_neg he]
      exact ih h

/-- C4: a validly signed, unexpired, refresh-purpose token whose value
differs from the Identity's stored refresh-token value: the route clears
the stored value (sets it to None) and fails with 401 "Invalid refresh
token". -/
theorem refresh_mismatch_clears_and_rejects
    (t : Jwt) (email : String) (db : List User) (user : User) (now : Nat)
    (hkey : t.key = SECRET_KEY) (hexp : now < t.payload.exp)
    (hscope : t.payload.scope = "refresh_token") (hsub : t.payload.sub = some email)
    (huser : getUserByEmail email db = some user)
    (hmis : user.refresh_token ≠ some t) :
    refreshTokenRoute t db now =
      (updateToken email none db, .error (.http 401 "Invalid refresh token"))
    ∧ getUserByEmail email (updateToken email none db) =
        some { user with refresh_token := none } := by
  refine ⟨?_, getUserByEmail_updateToken email none db user huser⟩
  simp [refreshTokenRoute, decodeRefreshToken, jwtDecode, hkey, hexp, hscope, hsub, huser, hmis]

/-- Witness for C4: presenting the stale token `rtStale` while `rtA` is
stored clears the stored value and yields the 401. -/
theorem refresh_mismatch_clears_and_rejects_witness :
    refreshTokenRoute rtStale [userA] 100 =
      (updateToken "a@x" none [userA], .error (.http 401 "Invalid refresh token"))
    ∧ getUserByEmail "a@x" (updateToken "a@x" none [userA]) =
        some { userA with refresh_token := none } :=
  refresh_mismatch_clears_and_rejects rtStale "a@x" [userA] userA 100 (by decide) (by decide)
    (by decide) (by decide) (by decide) (by decide)

/-! ## C5 — email-confirmation purpose check -/

/-- C5 counterexample: `atA` is validly signed, unexpired, and carries
the access (not email-confirmation) purpose, yet `get_email_from_token`
returns None normally instead of failing with an error: the scope
mismatch falls off the end of the function (src/services/auth.py lines
187-195 raise only inside the JWTError handler). -/
theorem email_token_scope_mismatch_cex :
    atA.key = SECRET_KEY ∧ 100 < atA.payload.exp ∧ atA.payload.scope ≠ "email_token"
    ∧ getEmailFromToken atA 100 = .ok none
    ∧ isError (getEmailFromToken atA 100) = false := by decide

/-- C5 (amended): for every validly signed, unexpired token whose purpose
tag is not email-confirmation, `get_email_from_token` returns None
without raising — no subject is returned, but the mismatch is signalled
by a silent None rather than an error; an error is raised only when
decoding itself fails. -/
theorem email_token_scope_mismatch_returns_none
    (p : JwtPayload) (now : Nat) (hexp : now < p.exp) (hscope : p.scope ≠ "email_token") :
    getEmailFromToken (jwtEncode p SECRET_KEY) now = .ok none := by
  simp [getEmailFromToken, jwtEncode, jwtDecode, hexp, hscope]

/-- Witness for C5 (amended) at a concrete access-purpose payload. -/
theorem email_token_scope_mismatch_returns_none_witness :
    getEmailFromToken (jwtEncode ⟨some "a@x", 0, 900, "access_token"⟩ SECRET_KEY) 100 =
      .ok none :=
  email_token_scope_mismatch_returns_none ⟨some "a@x", 0, 900, "access_token"⟩ 100 (by decide)
    (by decide)

/-! ## C6 — cross-purpose rejection of issued tokens -/

/-- C6: an issued refresh-purpose token is rejected by `get_current_user`
with the 401 credentials exception (for any check time, store and cache),
and an issued access-purpose token, while unexpired, is rejected by
`decode_refresh_token` with 401 "Invalid scope for token". -/
theorem token_purpose_cross_rejection
    (sub : String) (d d2 : Option Nat) (now now2 : Nat) (db : List User) (cache : RedisCache)
    (hexp : now2 < (createAccessToken ⟨some sub⟩ d2 now).payload.exp) :
    getCurrentUser (createRefreshToken ⟨some sub⟩ d now) db cache now2 =
      .error credentialsException
    ∧ decodeRefreshToken (createAccessToken ⟨some sub⟩ d2 now) now2 =
        .error (.http 401 "Invalid scope for token") := by
  constructor
  · by_cases h : now2 < (createRefreshToken ⟨some sub⟩ d now).payload.exp
    · simp [getCurrentUser, jwtDecode, refreshToken_key, refreshToken_scope, h,
        show ("refresh_token" : String) ≠ "access_token" by decide]
    · simp [getCurrentUser, jwtDecode, refreshToken_key, h]
  · simp [decodeRefreshToken, jwtDecode, accessToken_key, accessToken_scope, hexp,
      show ("access_token" : String) ≠ "refresh_token" by decide]

/-- Witness for C6 at concrete issuance and check times. -/
theorem token_purpose_cross_rejection_witness :
    getCurrentUser (createRefreshToken ⟨some "a@x"⟩ none 0) [userA] ⟨[], false⟩ 100 =
      .error credentialsException
    ∧ decodeRefreshToken (createAccessToken ⟨some "a@x"⟩ none 0) 100 =
        .error (.http 401 "Invalid scope for token") :=
  token_purpose_cross_rejection "a@x" none none 0 100 [userA] ⟨[], false⟩ (by decide)

/-! ## C7 — verify_password on malformed stored hashes -/

/-- C7 counterexample: on a stored value that is not a well-formed hash,
`verify_password` (a passthrough to passlib `CryptContext.verify`) raises
`UnknownHashError` instead of returning false. -/
theorem verify_password_malformed_hash_cex :
    strBeginsWith "nothash" bcryptIdent = false
    ∧ verifyPassword "pw123" "nothash" = .error .unknownHashError
    ∧ verifyPassword "pw123" "nothash" ≠ .ok false := by decide

/-- C7 (amended): for every plaintext and every stored hash that is not
identifiable as a bcrypt hash, `verify_password` raises the hash
library's `UnknownHashError` rather than returning false. -/
theorem verify_password_malformed_hash_raises
    (plain hashed : String) (h : strBeginsWith hashed bcryptIdent = false) :
    verifyPassword plain hashed = .error .unknownHashError := by
  simp [verifyPassword, cryptContextVerify, h]

/-- Witness for C7 (amended). -/
theorem verify_password_malformed_hash_raises_witness :
    verifyPassword "pw123" "nothash" = .error .unknownHashError :=
  verify_password_malformed_hash_raises "pw123" "nothash" (by decide)

/-! ## C8 — login failure responses -/

/-- C8 counterexample: with `userA` in the store, a login with an
unrecognized email and a login with the right email but wrong password
both yield 401, but with different details ("Invalid email" versus
"Invalid password") — the surfaced responses are not identical and
reveal which check failed. -/
theorem login_error_detail_leak_cex :
    login "bob@x" "pw123" [userA] 0 = ([userA], .error (.http 401 "Invalid email"))
    ∧ login "a@x" "wrong" [userA] 0 = ([userA], .error (.http 401 "Invalid password"))
    ∧ (PyErr.http 401 "Invalid email") ≠ (PyErr.http 401 "Invalid password") := by decide

/-- C8 (amended): both failing login attempts are rejected with status
401 and no tokens are issued, but the response details differ, naming the
failed check: "Invalid email" for an unrecognized email and "Invalid
password" for a recognized confirmed identity with a failing password
check. -/
theorem login_failures_both_401_distinct_details
    (e1 e2 p1 p2 : String) (db : List User) (user : User) (now : Nat)
    (h1 : getUserByEmail e1 db = none)
    (h2 : getUserByEmail e2 db = some user)
    (hconf : user.confirmed = true)
    (hpw : verifyPassword p2 user.password = .ok false) :
    login e1 p1 db now = (db, .error (.http 401 "Invalid email"))
    ∧ login e2 p2 db now = (db, .error (.http 401 "Invalid password")) := by
  constructor
  · simp [login, h1]
  · simp [login, h2, hconf, hpw]

/-- Witness for C8 (amended) at the counterexample's inputs. -/
theorem login_failures_both_401_distinct_details_witness :
    login "bob@x" "pw123" [userA] 0 = ([userA], .error (.http 401 "Invalid email"))
    ∧ login "a@x" "wrong" [userA] 0 = ([userA], .error (.http 401 "Invalid password")) :=
  login_failures_both_401_distinct_details "bob@x" "a@x" "pw123" "wrong" [userA] userA 0
    (by decide) (by decide) (by decide) (by decide)

/-! ## C9 — absent versus foreign-owned contact -/

/-- When no contact in the table matches both the id and the owner, the
repository lookup returns None. -/
theorem getContactById_none (cid : Nat) (db : List Contact) (user : String)
    (h : ∀ c ∈ db, ¬(c.id = cid ∧ c.user = user)) :
    getContactById cid db user = none := by
  unfold getContactById
  have hfil : db.filter (fun c => c.id == cid && c.user == user) = [] := by
    rw [List.filter_eq_nil_iff]
    intro c hc
    simp only [Bool.and_eq_true, beq_iff_eq]
    exact fun hcon => h c hc ⟨hcon.1, hcon.2⟩
  rw [hfil]
  rfl

/-- C9: whether no contact with the requested id exists at all (`db1`) or
one exists but is owned by a different user (`db2`), the `get_contact`
route produces the identical 404 "Not found" response. -/
theorem get_contact_absent_vs_foreign_identical
    (db1 db2 : List Contact) (user : String) (cid : Nat)
    (h1 : ∀ c ∈ db1, c.id ≠ cid)
    (h2 : ∀ c ∈ db2, c.id = cid → c.user ≠ user) :
    getContactRoute cid db1 user = .error (.http 404 "Not found")
    ∧ getContactRoute cid db2 user = getContactRoute cid db1 user := by
  have g1 : getContactById cid db1 user = none :=
    getContactById_none cid db1 user (fun c hc hcon => h1 c hc hcon.1)
  have g2 : getContactById cid db2 user = none :=
    getContactById_none cid db2 user (fun c hc hcon => h2 c hc hcon.1 hcon.2)
  constructor
  · simp [getContactRoute, g1]
  · simp [getContactRoute, g1, g2]

/-- Witness for C9: id 5 is absent from `db1` (which holds only contact
7 of the caller) and present in `db2` but owned by someone else. -/
theorem get_contact_absent_vs_foreign_identical_witness :
    getContactRoute 5 [⟨7, "me@x", none⟩] "me@x" = .error (.http 404 "Not found")
    ∧ getContactRoute 5 [⟨5, "other@x", none⟩] "me@x" =
        getContactRoute 5 [⟨7, "me@x", none⟩] "me@x" :=
  get_contact_absent_vs_foreign_identical [⟨7, "me@x", none⟩] [⟨5, "other@x", none⟩] "me@x" 5
    (by decide) (by decide)

/-! ## C10 — birthday search has no year wrap-around -/

/-- The loop body's acceptance test as a predicate on one contact. -/
def birthdayHit (nowD : PyDate) (days : Int) (c : Contact) : Bool :=
  match c.birthday with
  | none => false
  | some b =>
    match dateReplaceYear b nowD.year with
    | none => false
    | some bty => birthdayInRange days nowD bty

/-- A successful run of the collection loop returns exactly the contacts
accepted by `birthdayHit`, in order. -/
theorem searchLoop_ok (nowD : PyDate) (days : Int) (l r : List Contact)
    (h : searchLoop nowD days l = .ok r) : r = l.filter (birthdayHit nowD days) := by
  induction l generalizing r with
  | nil =>
    simp only [searchLoop] at h
    injection h with h2
    simp [h2.symm]
  | cons c rest ih =>
    unfold searchLoop at h
    split at h
    · rename_i hb
      rw [List.filter_cons_of_neg (by simp [birthdayHit, hb])]
      exact ih r h
    · rename_i b hb
      split at h
      · exact absurd h (by simp)
      · rename_i bty hr
        split at h
        · exact absurd h (by simp)
        · rename_i r2 hrec
          injection h with h2
          subst h2
          have hrest := ih r2 hrec
          by_cases hin : birthdayInRange days nowD bty = true
          · rw [List.filter_cons_of_pos (by simp [birthdayHit, hb, hr, hin])]
            simp [hin, hrest]
          · rw [List.filter_cons_of_neg (by simp [birthdayHit, hb, hr, hin])]
            simp [hin, hrest]

/-- C10: whenever `search_birthday` completes normally, (1) no returned
contact has a birthday that, with its year replaced by the current year,
falls before today — birthdays already past this calendar year are
excluded for every `days` parameter, with no wrap into the next year —
and (2) a queried contact whose year-replaced birthday lies exactly
`days` days ahead (for a non-negative `days` parameter) is included. -/
theorem search_birthday_no_wraparound
    (par : BirthdayPar) (db : List Contact) (user : String) (nowD : PyDate)
    (res : List Contact) (hok : searchBirthday par db user nowD = .ok res) :
    (∀ c ∈ res, ∀ b bty, c.birthday = some b → dateReplaceYear b nowD.year = some bty →
      dayOfYear nowD ≤ dayOfYear bty)
    ∧ (∀ c ∈ visibleContacts par db user, ∀ b bty, c.birthday = some b →
        dateReplaceYear b nowD.year = some bty → 0 ≤ par.days.getD 7 →
        (dayOfYear bty : Int) - (dayOfYear nowD : Int) = par.days.getD 7 → c ∈ res) := by
  have hok2 : searchLoop nowD (par.days.getD 7 + 1) (visibleContacts par db user) = .ok res :=
    hok
  have hfil := searchLoop_ok nowD (par.days.getD 7 + 1) (visibleContacts par db user) res hok2
  constructor
  · intro c hc b bty hb hr
    rw [hfil] at hc
    have hhit := List.of_mem_filter hc
    simp only [birthdayHit, hb, hr, birthdayInRange, decide_eq_true_eq] at hhit
    omega
  · intro c hc b bty hb hr hd hdiff
    rw [hfil]
    refine List.mem_filter.mpr ⟨hc, ?_⟩
    simp only [birthdayHit, hb, hr, birthdayInRange, decide_eq_true_eq]
    omega

/-- Today used by the C10 witness. -/
def nowW : PyDate := ⟨2026, 10, 12⟩

/-- A contact whose birthday is exactly 5 days ahead in the current year. -/
def cOct : Contact := ⟨1, "me", some ⟨1990, 10, 17⟩⟩

/-- A contact whose birthday already passed this calendar year. -/
def cJan : Contact := ⟨2, "me", some ⟨1990, 1, 1⟩⟩

/-- The parameters of the C10 witness: days = 5, no offset or limit. -/
def parW : BirthdayPar := ⟨some 5, none, none⟩

/-- Witness for C10: with days = 5 the January contact (already passed)
is excluded and the contact exactly 5 days ahead is included. -/
theorem search_birthday_no_wraparound_witness :
    searchBirthday parW [cOct, cJan] "me" nowW = .ok [cOct]
    ∧ dayOfYear nowW ≤ dayOfYear ⟨2026, 10, 17⟩
    ∧ cOct ∈ [cOct] :=
  ⟨by decide,
   (search_birthday_no_wraparound parW [cOct, cJan] "me" nowW [cOct] (by decide)).1 cOct
     (by decide) ⟨1990, 10, 17⟩ ⟨2026, 10, 17⟩ (by decide) (by decide),
   (search_birthday_no_wraparound parW [cOct, cJan] "me" nowW [cOct] (by decide)).2 cOct
     (by decide) ⟨1990, 10, 17⟩ ⟨2026, 10, 17⟩ (by decide) (by decide) (by decide) (by decide)⟩

end ContactsApp
